import Mathlib

/-!
# Verification of the flask-gevent-tutorial services

A shallow embedding of the three single-route HTTP services of the
repository:

* `slow_api/api.py` — the Delay Service (aiohttp): parses the optional
  `delay` query parameter with `float(... or 1)`, awaits
  `asyncio.sleep(delay)`, responds `200` with body `"slow api response"`.
* `flask_app/app.py` — the Front Service, API variant (Flask): parses the
  optional `delay` query parameter with `int(... or 1)`, issues one
  outbound GET to the Delay Service with the same delay, returns
  `'Hi there! ' + resp.text`.
* `flask_app/db.py` — the Front Service, Database variant (Flask): opens a
  database connection, parses `delay` with `float(... or 1)`, issues a GET
  to the Delay Service with `delay/2`, then executes
  `SELECT pg_sleep(delay/2), NOW()` on a cursor and returns
  `'Hi there! {} {}'.format(resp.text, cur.fetchall())`.

Numbers are modelled as `Int` (Python `int(...)`) and `ℚ` (Python
`float(...)`; none of the verified properties depend on binary
floating-point rounding, and all concrete inputs involved are exactly
representable). Query-parameter lookup yields `Option String`
(`None` for an absent parameter, the empty string for `?delay=`), and a
handler that raises an unhandled Python exception is modelled as
`Except.error`.
-/

namespace FlaskGevent

/-! ## Python numeric-literal parsing

Models of CPython's `int(s)` and `float(s)` on strings, restricted to the
ASCII decimal grammar: optional surrounding whitespace, an optional sign,
then for `int` a nonempty digit run, and for `float` a mantissa
(`digits [. digits]` or `. digits`) with an optional decimal exponent.
Underscore digit separators, non-ASCII digits and the special `float`
literals `inf`/`infinity`/`nan` are outside the fragment modelled here;
no verified property depends on them.
-/

/-- ASCII whitespace stripped by Python's implicit `str.strip()` inside
`int(...)`/`float(...)`. -/
def isPySpace (c : Char) : Bool :=
  c = ' ' || c = '\t' || c = '\n' || c = '\x0d' || c = '\x0b' || c = '\x0c'

/-- Strip leading and trailing whitespace, as Python number conversion does. -/
def pyStrip (cs : List Char) : List Char :=
  ((cs.dropWhile isPySpace).reverse.dropWhile isPySpace).reverse

/-- Numeric value of a decimal digit character. -/
def digitVal (c : Char) : Nat := c.toNat - 48

/-- Value of a nonempty run of decimal digits, most significant first. -/
def digitsVal (cs : List Char) : Nat :=
  cs.foldl (fun a c => 10 * a + digitVal c) 0

/-- Consume an optional leading sign; returns (isNegative, rest). -/
def parseSign : List Char → Bool × List Char
  | [] => (false, [])
  | c :: r =>
    if c = '-' then (true, r)
    else if c = '+' then (false, r)
    else (false, c :: r)

/-- CPython `int(s)` for a string `s`: strip whitespace, optional sign,
then a nonempty all-digit run; anything else raises `ValueError`,
modelled as `none`. -/
def pyIntOfString (s : String) : Option Int :=
  let p := parseSign (pyStrip s.data)
  if !p.2.isEmpty && p.2.all Char.isDigit then
    some (if p.1 then -(digitsVal p.2 : Int) else (digitsVal p.2 : Int))
  else none

/-- Split a character list at the first exponent marker `e`/`E`:
returns the mantissa part and, when a marker is present, the part after it. -/
def splitAtExp : List Char → List Char × Option (List Char)
  | [] => ([], none)
  | c :: r =>
    if c = 'e' || c = 'E' then ([], some r)
    else
      let q := splitAtExp r
      (c :: q.1, q.2)

/-- Parse a full mantissa: `digits`, `digits . digits?`, or `. digits`. -/
def parseMantissa (cs : List Char) : Option ℚ :=
  let ds := cs.takeWhile Char.isDigit
  match cs.dropWhile Char.isDigit with
  | [] => if ds.isEmpty then none else some (digitsVal ds : ℚ)
  | '.' :: fs =>
    if fs.all Char.isDigit && (!ds.isEmpty || !fs.isEmpty) then
      some ((digitsVal ds : ℚ) + (digitsVal fs : ℚ) / 10 ^ fs.length)
    else none
  | _ => none

/-- Parse the signed digit run after an exponent marker. -/
def parseExpDigits (cs : List Char) : Option Int :=
  let p := parseSign cs
  if !p.2.isEmpty && p.2.all Char.isDigit then
    some (if p.1 then -(digitsVal p.2 : Int) else (digitsVal p.2 : Int))
  else none

/-- The exponent contributed by the optional exponent part:
absent means `10 ^ 0`. -/
def parseExpPart : Option (List Char) → Option Int
  | none => some 0
  | some es => parseExpDigits es

/-- CPython `float(s)` for a string `s` (decimal fragment, as an exact
rational): strip whitespace, optional sign, mantissa, optional decimal
exponent; a parse failure (`ValueError`) is modelled as `none`. -/
def pyFloatOfString (s : String) : Option ℚ :=
  let p := parseSign (pyStrip s.data)
  let q := splitAtExp p.2
  match parseMantissa q.1, parseExpPart q.2 with
  | some m, some e => some ((if p.1 then -m else m) * (10 : ℚ) ^ e)
  | _, _ => none

/-! ## HTTP-level data -/

/-- An unhandled Python exception escaping a request handler. -/
inductive PyError where
  | valueError
deriving DecidableEq

/-- An HTTP response: status code and text body. -/
structure Response where
  status : Nat
  text : String
deriving DecidableEq

deriving instance DecidableEq for Except

/-! ## Effective delay: the expression `<cast>(<get>('delay') or 1)`

Each handler computes its delay as a cast applied to
`request.args.get('delay') or 1` (Flask) or
`request.query.get('delay') or 1` (aiohttp).  The `get` yields `None`
when the parameter is absent and the empty string for `?delay=`; both are
falsy in Python, so `or 1` replaces them by the integer `1`
(`int(1) = 1`, `float(1) = 1.0`).  A truthy (nonempty) string is passed
to the cast, which raises `ValueError` when it does not parse. -/

/-- `delay = int(request.args.get('delay') or 1)` in `flask_app/app.py`. -/
def appDelay (p : Option String) : Except PyError Int :=
  match p with
  | none => .ok 1
  | some s =>
    if s = "" then .ok 1
    else
      match pyIntOfString s with
      | some n => .ok n
      | none => .error .valueError

/-- `delay = float(request.args.get('delay') or 1)` in `flask_app/db.py`. -/
def dbDelay (p : Option String) : Except PyError ℚ :=
  match p with
  | none => .ok 1
  | some s =>
    if s = "" then .ok 1
    else
      match pyFloatOfString s with
      | some x => .ok x
      | none => .error .valueError

/-- `delay = float(request.query.get('delay') or 1)` in `slow_api/api.py`. -/
def apiDelay (p : Option String) : Except PyError ℚ :=
  match p with
  | none => .ok 1
  | some s =>
    if s = "" then .ok 1
    else
      match pyFloatOfString s with
      | some x => .ok x
      | none => .error .valueError

/-! ## Delay Service: `handle` in `slow_api/api.py` -/

/-- Outcome of the Delay Service handler: the duration passed to the
non-blocking `await asyncio.sleep(delay)` (the handler suspends for it
without blocking other requests), and the response returned. -/
structure DelayResult where
  sleep : ℚ
  resp : Response
deriving DecidableEq

/-- The Delay Service handler: parse `delay`, `await asyncio.sleep(delay)`,
then `return web.Response(text='slow api response')` (aiohttp status
defaults to 200). -/
def handle (p : Option String) : Except PyError DelayResult :=
  match apiDelay p with
  | .error e => .error e
  | .ok d => .ok ⟨d, ⟨200, "slow api response"⟩⟩

/-! ## Front Service, API variant: `index` in `flask_app/app.py` -/

/-- Outcome of the API-variant front handler: the list of outbound HTTP GET
calls to the Delay Service issued during the request (each recorded by the
`delay` value carried in its query string), and the response returned. -/
structure AppResult where
  calls : List Int
  resp : Response
deriving DecidableEq

/-- The API-variant front handler: parse `delay` as an `int`, issue
`requests.get(f'{api_url}?delay={delay}')` — one synchronous, blocking GET
whose response is fully received before the next line runs — and
`return 'Hi there! ' + resp.text` (Flask wraps a returned string as a
200 response).  The Delay Service's behavior is a parameter
`downstream`, mapping the delay carried by the GET to the response. -/
def app_index (downstream : Int → Response) (p : Option String) :
    Except PyError AppResult :=
  match appDelay p with
  | .error e => .error e
  | .ok d =>
    let r := downstream d
    .ok ⟨[d], ⟨200, "Hi there! " ++ r.text⟩⟩

/-! ## Front Service, Database variant: `index` in `flask_app/db.py` -/

/-- The observable effects of the database-variant handler, in the order
the handler's straight-line code performs them.  `httpGet q` is the
synchronous `requests.get` to the Delay Service carrying delay `q`
(the call returns only once the downstream response is complete);
`query q` is `cur.execute("SELECT pg_sleep(%s), NOW()", (q,))`, which is
issued only after the `requests.get` line has returned. -/
inductive DbEvent where
  | connect
  | httpGet (q : ℚ)
  | query (q : ℚ)
  | close
deriving DecidableEq

/-- The database-variant front handler, from `flask_app/db.py`:
`psycopg2.connect(...)` first (so the connection is opened even when the
delay fails to parse), then `delay = float(... or 1)`, then the blocking
`requests.get(f'{api_url}?delay={delay/2}')`, then
`cur.execute("SELECT pg_sleep(%s), NOW()", (delay/2,))`, and finally
`return 'Hi there! {} {}'.format(resp.text, cur.fetchall())` — which is
`'Hi there! ' ++ resp.text ++ ' ' ++ <fetchall result>`.  The function
returns the event trace in program order together with the handler
outcome; there is no `conn.close()` anywhere in the source, so no
execution path emits `DbEvent.close`.  `downstream` gives the Delay
Service response for the delay carried by the GET, and `fetchall` gives
the string rendering of `cur.fetchall()` for the `pg_sleep` argument. -/
def db_index (downstream : ℚ → Response) (fetchall : ℚ → String)
    (p : Option String) : List DbEvent × Except PyError Response :=
  match dbDelay p with
  | .error e => ([.connect], .error e)
  | .ok d =>
    let r := downstream (d / 2)
    ([.connect, .httpGet (d / 2), .query (d / 2)],
      .ok ⟨200, "Hi there! " ++ r.text ++ " " ++ fetchall (d / 2)⟩)

/-- Modelled from the spec: the wall-clock duration of each effect of the
database-variant handler.  `pg_sleep(q)` (PostgreSQL, not part of src/)
suspends the query for `q` seconds per the spec's §4.3 contract, and the
GET to the Delay Service with delay `q` takes `q` seconds per the Delay
Service contract (its handler sleeps for the parsed delay: §4.1, §8).
Connection setup is idealized as instantaneous. -/
def eventDur : DbEvent → ℚ
  | .connect => 0
  | .httpGet q => q
  | .query q => q
  | .close => 0

/-- Total handler latency of the database-variant handler: its effects run
sequentially (each line of the handler starts only after the previous one
returned), so the total is the sum of the individual durations. -/
def dbLatency (downstream : ℚ → Response) (fetchall : ℚ → String)
    (p : Option String) : ℚ :=
  ((db_index downstream fetchall p).1.map eventDur).sum

/-- Modelled from the spec: the web frameworks (Flask, aiohttp) are not
part of src/; per §7 of the spec, an unhandled exception escaping a
handler is "turned into generic 500 responses by the framework
default". -/
def frameworkWrap (r : Except PyError Response) : Response :=
  match r with
  | .ok resp => resp
  | .error _ => ⟨500, "Internal Server Error"⟩

/-- A status code in the 4xx range (a client error). -/
def isClientError (st : Nat) : Prop := 400 ≤ st ∧ st < 500

/-! ## Parser lemmas -/

/-- A decimal digit is neither exponent marker. -/
theorem isDigit_not_expMarker {c : Char} (h : c.isDigit = true) :
    (decide (c = 'e') || decide (c = 'E')) = false := by
  apply Bool.or_eq_false_iff.mpr
  constructor
  · apply decide_eq_false; intro hc; subst hc; exact absurd h (by decide)
  · apply decide_eq_false; intro hc; subst hc; exact absurd h (by decide)

/-- An all-digit list has no exponent marker to split at. -/
theorem splitAtExp_all_digits {cs : List Char} (h : cs.all Char.isDigit = true) :
    splitAtExp cs = (cs, none) := by
  induction cs with
  | nil => rfl
  | cons c r ih =>
    rw [List.all_cons, Bool.and_eq_true] at h
    simp [splitAtExp, isDigit_not_expMarker h.1, ih h.2]

/-- On a nonempty all-digit list the mantissa is its integer value. -/
theorem parseMantissa_all_digits {cs : List Char} (hne : cs.isEmpty = false)
    (h : cs.all Char.isDigit = true) :
    parseMantissa cs = some (digitsVal cs : ℚ) := by
  unfold parseMantissa
  rw [List.takeWhile_eq_self_iff.mpr, List.dropWhile_eq_nil_iff.mpr]
  · simp [hne]
  · exact fun x hx => List.all_eq_true.mp h x hx
  · exact fun x hx => List.all_eq_true.mp h x hx

/-- Every string accepted by Python's `int(...)` is accepted by
`float(...)` with the same (integral) value: the `int` grammar
(sign + digits) is a sub-grammar of the `float` grammar. -/
theorem pyFloat_of_pyInt {s : String} {n : Int} (h : pyIntOfString s = some n) :
    pyFloatOfString s = some (n : ℚ) := by
  unfold pyIntOfString at h
  by_cases hc : (!(parseSign (pyStrip s.data)).2.isEmpty
      && (parseSign (pyStrip s.data)).2.all Char.isDigit) = true
  · rw [if_pos hc] at h
    rw [Bool.and_eq_true, Bool.not_eq_true'] at hc
    simp only [pyFloatOfString]
    rw [splitAtExp_all_digits hc.2]
    rw [parseMantissa_all_digits hc.1 hc.2]
    simp only [parseExpPart]
    rw [Option.some_inj] at h
    subst h
    by_cases hs : (parseSign (pyStrip s.data)).1 = true
    · simp [hs]
    · rw [Bool.not_eq_true] at hs
      simp [hs]
  · rw [if_neg hc] at h
    exact absurd h (by simp)

/-- A string rejected by Python's `float(...)` is rejected by `int(...)`. -/
theorem pyInt_eq_none_of_pyFloat_eq_none {s : String}
    (h : pyFloatOfString s = none) : pyIntOfString s = none := by
  cases hi : pyIntOfString s with
  | none => rfl
  | some n => rw [pyFloat_of_pyInt hi] at h; exact absurd h (by simp)

/-! ## Concrete evaluations of the delay parsers -/

/-- `int('2') = 2` via the app.py delay expression. -/
theorem appDelay_two : appDelay (some "2") = .ok 2 := by decide

/-- `float('2') = 2.0` via the api.py delay expression. -/
theorem apiDelay_two : apiDelay (some "2") = .ok 2 := by
  simp [apiDelay, pyFloatOfString, pyStrip, parseSign, splitAtExp, parseMantissa,
    parseExpPart, digitsVal, digitVal, isPySpace, List.dropWhile, List.takeWhile]

/-- `float('2') = 2.0` via the db.py delay expression. -/
theorem dbDelay_two : dbDelay (some "2") = .ok 2 := by
  simp [dbDelay, pyFloatOfString, pyStrip, parseSign, splitAtExp, parseMantissa,
    parseExpPart, digitsVal, digitVal, isPySpace, List.dropWhile, List.takeWhile]

/-- `float('1.5') = 1.5` via the db.py delay expression. -/
theorem dbDelay_onePointFive : dbDelay (some "1.5") = .ok (3/2) := by
  simp [dbDelay, pyFloatOfString, pyStrip, parseSign, splitAtExp, parseMantissa,
    parseExpPart, digitsVal, digitVal, isPySpace, List.dropWhile, List.takeWhile]
  norm_num

/-- `float('1.5')` also succeeds for the Delay Service. -/
theorem apiDelay_onePointFive : apiDelay (some "1.5") = .ok (3/2) := by
  simp [apiDelay, pyFloatOfString, pyStrip, parseSign, splitAtExp, parseMantissa,
    parseExpPart, digitsVal, digitVal, isPySpace, List.dropWhile, List.takeWhile]
  norm_num

/-- `float('1.5')` itself. -/
theorem pyFloat_onePointFive : pyFloatOfString "1.5" = some (3/2) := by
  simp [pyFloatOfString, pyStrip, parseSign, splitAtExp, parseMantissa,
    parseExpPart, digitsVal, digitVal, isPySpace, List.dropWhile, List.takeWhile]
  norm_num

/-- `float('abc')` raises `ValueError`. -/
theorem pyFloat_abc_none : pyFloatOfString "abc" = none := by decide

/-- `float(...)` of the db.py delay expression raises on `'abc'`. -/
theorem dbDelay_abc : dbDelay (some "abc") = .error .valueError := by
  simp [dbDelay, pyFloat_abc_none]

/-- `float(...)` of the api.py delay expression raises on `'abc'`. -/
theorem apiDelay_abc : apiDelay (some "abc") = .error .valueError := by
  simp [apiDelay, pyFloat_abc_none]

/-- `int(...)` of the app.py delay expression raises on `'abc'`. -/
theorem appDelay_abc : appDelay (some "abc") = .error .valueError := by decide

/-! ## Claims -/

/-- C1 (counterexample): the claim asserts the Database-variant Front
Service issues the Delay-Service call and the `pg_sleep` query
concurrently, so that for `delay = 2` the total handler latency is
approximately 1 second.  In the source the handler is straight-line code:
`requests.get` returns only after the downstream response is complete and
only then is `cur.execute` issued, so for `delay = 2` the latency is
1 + 1 = 2 seconds, which is not approximately 1. -/
theorem db_concurrency_counterexample :
    dbLatency (fun _ => ⟨200, "slow api response"⟩) (fun _ => "pg") (some "2") = 2 ∧
    ¬ dbLatency (fun _ => ⟨200, "slow api response"⟩) (fun _ => "pg") (some "2") ≤ 3/2 := by
  have h : dbLatency (fun _ => ⟨200, "slow api response"⟩) (fun _ => "pg") (some "2") = 2 := by
    simp [dbLatency, db_index, dbDelay_two, eventDur]
    norm_num
  exact ⟨h, by rw [h]; norm_num⟩

/-- C1 (amended): for every request with numeric delay `d`, the
Database-variant Front Service issues the HTTP call to the Delay Service
(with `d/2`) and the database query `pg_sleep(d/2)` sequentially — the
HTTP call completes before the query is issued — so the total handler
latency is `d/2 + d/2 = d` (approximately 2 seconds for `d = 2`),
not `d/2`. -/
theorem db_sequential_latency (downstream : ℚ → Response) (fetchall : ℚ → String)
    (p : Option String) (d : ℚ) (hp : dbDelay p = .ok d) :
    (db_index downstream fetchall p).1 =
      [DbEvent.connect, DbEvent.httpGet (d/2), DbEvent.query (d/2)] ∧
    dbLatency downstream fetchall p = d := by
  constructor
  · simp [db_index, hp]
  · simp [dbLatency, db_index, hp, eventDur]

/-- C1 (witness): the amended claim at `delay = 2`. -/
theorem db_sequential_latency_witness :
    (db_index (fun _ => ⟨200, "slow api response"⟩) (fun _ => "pg") (some "2")).1 =
      [DbEvent.connect, DbEvent.httpGet (2/2), DbEvent.query (2/2)] ∧
    dbLatency (fun _ => ⟨200, "slow api response"⟩) (fun _ => "pg") (some "2") = 2 :=
  db_sequential_latency _ _ (some "2") 2 dbDelay_two

/-- C2 (counterexample): for the non-empty non-numeric delay `'abc'` all
three handlers raise an unhandled `ValueError` (they do not return a
response themselves), and the framework-default conversion yields status
500, which is not a client error (4xx). -/
theorem malformed_delay_counterexample :
    appDelay (some "abc") = .error .valueError ∧
    dbDelay (some "abc") = .error .valueError ∧
    apiDelay (some "abc") = .error .valueError ∧
    (frameworkWrap ((app_index (fun _ => ⟨200, "slow api response"⟩)
      (some "abc")).map AppResult.resp)).status = 500 ∧
    (frameworkWrap (db_index (fun _ => ⟨200, "slow api response"⟩)
      (fun _ => "[(None,)]") (some "abc")).2).status = 500 ∧
    (frameworkWrap ((handle (some "abc")).map DelayResult.resp)).status = 500 ∧
    ¬ isClientError 500 := by
  refine ⟨appDelay_abc, dbDelay_abc, apiDelay_abc, ?_, ?_, ?_, ?_⟩
  · simp [frameworkWrap, app_index, appDelay_abc, Except.map]
  · simp [frameworkWrap, db_index, dbDelay_abc]
  · simp [frameworkWrap, handle, apiDelay_abc, Except.map]
  · simp [isClientError]

/-- C2 (amended): for every request whose delay query parameter is a
non-empty string that Python `float(...)` rejects (hence `int(...)`
rejects it too), each service handler raises an unhandled `ValueError`,
which the framework default turns into a generic 500 server error
response — a 5xx, not a 4xx client error (the process does not crash,
but no client error is returned). -/
theorem malformed_delay_yields_500 (s : String) (downstream : Int → Response)
    (downstreamQ : ℚ → Response) (fetchall : ℚ → String)
    (hne : s ≠ "") (hf : pyFloatOfString s = none) :
    appDelay (some s) = .error .valueError ∧
    dbDelay (some s) = .error .valueError ∧
    apiDelay (some s) = .error .valueError ∧
    (frameworkWrap ((app_index downstream (some s)).map AppResult.resp)).status = 500 ∧
    (frameworkWrap (db_index downstreamQ fetchall (some s)).2).status = 500 ∧
    (frameworkWrap ((handle (some s)).map DelayResult.resp)).status = 500 ∧
    ¬ isClientError 500 := by
  have hi : pyIntOfString s = none := pyInt_eq_none_of_pyFloat_eq_none hf
  have ha : appDelay (some s) = .error .valueError := by simp [appDelay, hne, hi]
  have hb : dbDelay (some s) = .error .valueError := by simp [dbDelay, hne, hf]
  have hq : apiDelay (some s) = .error .valueError := by simp [apiDelay, hne, hf]
  refine ⟨ha, hb, hq, ?_, ?_, ?_, ?_⟩
  · simp [frameworkWrap, app_index, ha, Except.map]
  · simp [frameworkWrap, db_index, hb]
  · simp [frameworkWrap, handle, hq, Except.map]
  · simp [isClientError]

/-- C2 (witness): the amended claim at the malformed delay `'abc'`. -/
theorem malformed_delay_yields_500_witness :
    appDelay (some "abc") = .error .valueError ∧
    dbDelay (some "abc") = .error .valueError ∧
    apiDelay (some "abc") = .error .valueError ∧
    (frameworkWrap ((app_index (fun _ => ⟨200, "x"⟩) (some "abc")).map AppResult.resp)).status = 500 ∧
    (frameworkWrap (db_index (fun _ => ⟨200, "x"⟩) (fun _ => "y") (some "abc")).2).status = 500 ∧
    (frameworkWrap ((handle (some "abc")).map DelayResult.resp)).status = 500 ∧
    ¬ isClientError 500 :=
  malformed_delay_yields_500 "abc" (fun _ => ⟨200, "x"⟩) (fun _ => ⟨200, "x"⟩)
    (fun _ => "y") (by decide) pyFloat_abc_none

/-- C3 (counterexample): the claim asserts the effective delay defaults
to 1 whenever the parameter is unparsable; but for the unparsable
non-empty string `'abc'` every handler raises `ValueError` instead of
using 1 — the `or 1` default applies only to falsy values (absent
parameter or empty string), not to unparsable truthy strings, which
reach the failing numeric cast. -/
theorem unparsable_delay_not_defaulted :
    appDelay (some "abc") = .error .valueError ∧ appDelay (some "abc") ≠ .ok 1 ∧
    dbDelay (some "abc") = .error .valueError ∧ dbDelay (some "abc") ≠ .ok 1 ∧
    apiDelay (some "abc") = .error .valueError ∧ apiDelay (some "abc") ≠ .ok 1 := by
  refine ⟨appDelay_abc, ?_, dbDelay_abc, ?_, apiDelay_abc, ?_⟩
  · rw [appDelay_abc]; simp
  · rw [dbDelay_abc]; simp
  · rw [apiDelay_abc]; simp

/-- C3 (amended): the effective delay equals 1 whenever the delay query
parameter is absent or present-but-empty (the falsy cases of the
`or 1` expression); a non-empty unparsable parameter is instead an
error. -/
theorem absent_or_empty_delay_defaults (p : Option String)
    (hp : p = none ∨ p = some "") :
    appDelay p = .ok 1 ∧ dbDelay p = .ok 1 ∧ apiDelay p = .ok 1 := by
  rcases hp with rfl | rfl
  · exact ⟨rfl, rfl, rfl⟩
  · exact ⟨rfl, rfl, rfl⟩

/-- C3 (witness): the amended claim at an absent parameter. -/
theorem absent_or_empty_delay_defaults_witness :
    appDelay none = .ok 1 ∧ dbDelay none = .ok 1 ∧ apiDelay none = .ok 1 :=
  absent_or_empty_delay_defaults none (Or.inl rfl)

/-- C4: for every request with non-negative numeric delay `d`, the Delay
Service handler suspends (via the non-blocking `await asyncio.sleep`)
for exactly `d` seconds and then returns HTTP 200 with body exactly
`"slow api response"`. -/
theorem delay_service_sleeps_and_responds (p : Option String) (d : ℚ)
    (hp : apiDelay p = .ok d) (_hd : 0 ≤ d) :
    handle p = .ok ⟨d, ⟨200, "slow api response"⟩⟩ := by
  simp [handle, hp]

/-- C4 (witness): the claim at `delay = 2`. -/
theorem delay_service_sleeps_and_responds_witness :
    0 ≤ (2 : ℚ) ∧ handle (some "2") = .ok ⟨2, ⟨200, "slow api response"⟩⟩ :=
  ⟨by norm_num, delay_service_sleeps_and_responds (some "2") 2 apiDelay_two (by norm_num)⟩

/-- C5: for every request with (int-parsed) delay `d`, the API-variant
Front Service issues exactly one outbound GET to the Delay Service
carrying the same delay `d`, waits for the full downstream response, and
returns `"Hi there! "` concatenated with the downstream body — in
particular `"Hi there! slow api response"` when the downstream behaves
per its contract. -/
theorem app_front_single_call_and_compose (downstream : Int → Response)
    (p : Option String) (d : Int) (hp : appDelay p = .ok d) :
    app_index downstream p =
      .ok ⟨[d], ⟨200, "Hi there! " ++ (downstream d).text⟩⟩ ∧
    ((downstream d).text = "slow api response" →
      app_index downstream p =
        .ok ⟨[d], ⟨200, "Hi there! slow api response"⟩⟩) := by
  constructor
  · simp [app_index, hp]
  · intro hb
    simp [app_index, hp, hb]

/-- C5 (witness): the claim at `delay = 2` with a contract-conforming
downstream. -/
theorem app_front_single_call_and_compose_witness :
    app_index (fun _ => ⟨200, "slow api response"⟩) (some "2") =
      .ok ⟨[2], ⟨200, "Hi there! slow api response"⟩⟩ :=
  (app_front_single_call_and_compose (fun _ => ⟨200, "slow api response"⟩)
    (some "2") 2 appDelay_two).2 rfl

/-- C6: when the delay query parameter is missing, each of the three
services uses an effective delay of 1 (`int(None or 1) = 1` in app.py,
`float(None or 1) = 1.0` in db.py and api.py). -/
theorem missing_delay_defaults_to_one :
    appDelay none = .ok 1 ∧ dbDelay none = .ok 1 ∧ apiDelay none = .ok 1 :=
  ⟨rfl, rfl, rfl⟩

/-- C7: for every request with numeric delay `d` (fractional values
accepted), the Database-variant Front Service opens a new database
connection, issues the GET to the Delay Service with `d/2`, issues the
query `SELECT pg_sleep(d/2), NOW()`, and returns the body
`"Hi there! " ++ <downstream body> ++ " " ++ <query result>`. -/
theorem db_front_effects_and_body (downstream : ℚ → Response)
    (fetchall : ℚ → String) (p : Option String) (d : ℚ)
    (hp : dbDelay p = .ok d) :
    db_index downstream fetchall p =
      ([DbEvent.connect, DbEvent.httpGet (d/2), DbEvent.query (d/2)],
        .ok ⟨200, "Hi there! " ++ (downstream (d/2)).text ++ " " ++ fetchall (d/2)⟩) := by
  simp [db_index, hp]

/-- C7 (witness): the claim at the fractional delay `1.5`. -/
theorem db_front_effects_and_body_witness :
    db_index (fun _ => ⟨200, "slow api response"⟩) (fun _ => "[(None,)]") (some "1.5") =
      ([DbEvent.connect, DbEvent.httpGet (3/4), DbEvent.query (3/4)],
        .ok ⟨200, "Hi there! slow api response [(None,)]"⟩) := by
  have h := db_front_effects_and_body (fun _ => ⟨200, "slow api response"⟩)
    (fun _ => "[(None,)]") (some "1.5") (3/2) dbDelay_onePointFive
  rw [h]
  have h34 : (3/2/2 : ℚ) = 3/4 := by norm_num
  rw [h34]
  rfl

/-- C8: the Database-variant handler opens a connection on every request
and no execution path (neither the success path nor the parse-error
path) ever closes it: `DbEvent.close` never occurs in the handler's
event trace. -/
theorem db_front_never_closes (downstream : ℚ → Response)
    (fetchall : ℚ → String) (p : Option String) :
    DbEvent.close ∉ (db_index downstream fetchall p).1 := by
  cases h : dbDelay p with
  | error e => simp [db_index, h]
  | ok d => simp [db_index, h]

/-- C9: the API-variant Front Service parses the delay with `int(...)`
while the other two services use `float(...)`: every delay string whose
float value is a non-integer rational is rejected by `int(...)`
(an unhandled `ValueError` in app.py) while db.py and api.py accept it
with that value. -/
theorem int_vs_float_parse_divergence (s : String) (x : ℚ)
    (hf : pyFloatOfString s = some x) (hx : ∀ n : ℤ, (n : ℚ) ≠ x) :
    pyIntOfString s = none ∧
    appDelay (some s) = .error .valueError ∧
    dbDelay (some s) = .ok x ∧
    apiDelay (some s) = .ok x := by
  have hi : pyIntOfString s = none := by
    cases hi : pyIntOfString s with
    | none => rfl
    | some n =>
      have hn := pyFloat_of_pyInt hi
      rw [hf] at hn
      exact absurd (Option.some_inj.mp hn).symm (hx n)
  have hs : s ≠ "" := by
    intro h
    subst h
    have h0 : pyFloatOfString "" = none := rfl
    rw [h0] at hf
    exact Option.noConfusion hf
  refine ⟨hi, ?_, ?_, ?_⟩
  · simp [appDelay, hs, hi]
  · simp [dbDelay, hs, hf]
  · simp [apiDelay, hs, hf]

/-- C9 (witness): the claim at the non-integer numeric delay `'1.5'`. -/
theorem int_vs_float_parse_divergence_witness :
    pyIntOfString "1.5" = none ∧
    appDelay (some "1.5") = .error .valueError ∧
    dbDelay (some "1.5") = .ok (3/2) ∧
    apiDelay (some "1.5") = .ok (3/2) :=
  int_vs_float_parse_divergence "1.5" (3/2) pyFloat_onePointFive
    (by
      intro n hn
      have h2 : (2 : ℚ) * n = 3 := by rw [hn]; ring
      have h3 : (2 * n : ℤ) = 3 := by exact_mod_cast h2
      omega)

/-- C10: in all three services a present-but-empty delay parameter
(`?delay=`) is treated exactly like an absent one: the empty string is
falsy, so `or 1` makes the effective delay 1 and no parse error is
raised. -/
theorem empty_delay_equals_absent :
    appDelay (some "") = appDelay none ∧ appDelay (some "") = .ok 1 ∧
    dbDelay (some "") = dbDelay none ∧ dbDelay (some "") = .ok 1 ∧
    apiDelay (some "") = apiDelay none ∧ apiDelay (some "") = .ok 1 :=
  ⟨rfl, rfl, rfl, rfl, rfl, rfl⟩

end FlaskGevent
